import Mathlib

/-!
Verification of the cursor execution and batch-retrieval engine of a
document-database driver (the abstract cursor state machine in
`src/cursor/abstract_cursor.ts`, together with the find-cursor builder
methods in `src/cursor/find_cursor.ts`).

The embedding is a shallow one: the asynchronous, callback-passing
JavaScript is translated into explicit state passing.  A `World` holds the
cursor's mutable fields, the environment (the responses the network layer
will deliver), and a log of the externally observable effects
(initialization, getMore, killCursors, endSession).  Each driver operation
becomes a total function from `World` to a result paired with the new
`World`.
-/

/-- Externally observable effects of the cursor engine, in invocation
order: the initial operation execution (`_initialize` reaching
`executeOperation`), a `server.getMore` call, a `server.killCursors` call,
and a `session.endSession` call. -/
inductive Event where
  | initOp
  | getMoreOp
  | killCursorsOp
  | endSessionOp
deriving DecidableEq, Repr

/-- A cursor id (`Long`).  JavaScript compares ids both by value
(`cursorId.isZero()`) and by reference against the interned `Long.ZERO`
object (`this[kId] === Long.ZERO`).  `sentinel` is the `Long.ZERO` object
itself — in the source it is assigned to `kId` only by `close()`'s local
path; ids taken from server responses go through `Long.fromNumber` (or
BSON deserialization) and are therefore always fresh objects, modelled by
`val n`. -/
inductive CursorId where
  | sentinel
  | val (n : Int)
deriving DecidableEq, Repr

/-- `Long.isZero()` — a value test; the `Long.ZERO` object is itself
zero-valued. -/
def CursorId.isZero : CursorId → Bool
  | CursorId.sentinel => true
  | CursorId.val n => n == 0

/-- `this[kId] === Long.ZERO` — a reference test; only the sentinel object
passes. -/
def isSentinel : CursorId → Bool
  | CursorId.sentinel => true
  | CursorId.val _ => false

/-- A `ClientSession` as far as the cursor layer observes it:
`ownedByCursor` records whether `session.owner === cursor` holds for the
cursor under consideration.  Implicitly created sessions
(`topology.startSession with owner cursor`) have it `true`; a
caller-supplied (borrowed) session has it `false`. -/
structure Session where
  ownedByCursor : Bool
deriving DecidableEq, Repr

/-- A JavaScript value delivered through a callback: `undefined`, `null`,
or an actual document.  The driver distinguishes the three (for example
the async-iterator adapter tests `value === null`). -/
inductive JSVal (Doc : Type) where
  | undef
  | null
  | doc (d : Doc)
deriving DecidableEq, Repr

/-- Errors surfaced by the cursor layer.  `cursorExhausted` is the local
`MongoError with message Cursor is exhausted`; `noPinnedServer` is the
local `MongoError` raised when a batch advance finds no pinned server;
`mongoError msg` is any error produced by the network / operation layer
and handed to a callback. -/
inductive MErr where
  | cursorExhausted
  | noPinnedServer
  | mongoError (msg : String)
deriving DecidableEq, Repr

/-- The mutable fields of an `AbstractCursor`:
`id` (`kId`, absent until initialization), `ns` (`kNamespace`),
`server` (whether `kServer` is set), `documents` (`kDocuments`),
`session` (`kSession`), `transform` (`kTransform`), the public `closed`
flag, and the topology's `hasSessionSupport()` answer. -/
structure Cursor (Doc : Type) where
  id : Option CursorId
  ns : Option String
  server : Bool
  documents : List Doc
  session : Option Session
  transform : Option (Doc → Doc)
  closed : Bool
  sessionSupport : Bool

/-- The `AbstractCursor` constructor: no id, no namespace, no pinned
server, empty buffer, no transform, `closed = false`; the session is
`options.session` when the caller supplied one. -/
def mkCursor (Doc : Type) (session : Option Session) (sessionSupport : Bool) : Cursor Doc :=
  { id := none, ns := none, server := false, documents := [], session := session,
    transform := none, closed := false, sessionSupport := sessionSupport }

/-- Apply the cursor's transform when one is set (`kTransform`). -/
def applyTransform {Doc : Type} (t : Option (Doc → Doc)) (d : Doc) : Doc :=
  match t with
  | some f => f d
  | none => d

/-- `nextDocument(cursor)`: `undefined` when the buffer is empty,
otherwise shift the front document and apply the transform.  (The
source's final `return null` for a falsy shifted document is unreachable
here: batch entries are BSON documents, i.e. truthy objects.) -/
def nextDocument {Doc : Type} (c : Cursor Doc) : JSVal Doc × Cursor Doc :=
  match c.documents with
  | [] => (JSVal.undef, c)
  | d :: rest => (JSVal.doc (applyTransform c.transform d), { c with documents := rest })

/-- `cursor.id && cursor.id.isZero()` — the id is present and zero-valued
(a `Long` object is always truthy, so the conjunction is just presence
plus `isZero`). -/
def idPresentZero {Doc : Type} (c : Cursor Doc) : Bool :=
  match c.id with
  | some cid => cid.isZero
  | none => false

/-- `session && session.owner === cursor`. -/
def sessionOwned : Option Session → Bool
  | some s => s.ownedByCursor
  | none => false

/-- `isClosed()`: `false` when the id is absent; otherwise
`cursorId.isZero() || cursorId === Long.ZERO`. -/
def isClosed {Doc : Type} (c : Cursor Doc) : Bool :=
  match c.id with
  | none => false
  | some cid => cid.isZero || isSentinel cid

/-- The raw first-batch server response delivered to `_initialize`'s
callback: either the structured `response.cursor` shape (id, namespace
string, `firstBatch`) or the legacy pre-3.2 shape (top-level `cursorId`
and `documents`). -/
inductive InitResponse (Doc : Type) where
  | cursorShape (id : Int) (ns : String) (firstBatch : List Doc)
  | legacyShape (cursorId : Int) (documents : List Doc)

/-- The `ExecutionResult` handed back by `_initialize` on success.  Both
concrete cursors (`FindCursor`, `AggregationCursor`) pass the very
session they received straight back, so the session field is not
modelled separately: the state machine re-installs the session it
provided.  `nsField` is `state.namespace`, used by the legacy shape. -/
structure InitState (Doc : Type) where
  nsField : String
  resp : InitResponse Doc

/-- A `getMore` response: `response.cursor.id` and
`response.cursor.nextBatch`. -/
structure GetMoreResponse (Doc : Type) where
  id : Int
  nextBatch : List Doc

/-- A cursor together with its environment: the result `_initialize` will
deliver, the queue of `getMore` results the server will deliver (consumed
front first), and the accumulated effect log.  Environment errors are
plain strings and enter the model as `MErr.mongoError`. -/
structure World (Doc : Type) where
  c : Cursor Doc
  initRes : Except String (InitState Doc)
  gmRes : List (Except String (GetMoreResponse Doc))
  ev : List Event

/-- Append one observable effect to the log. -/
def logEv {Doc : Type} (w : World Doc) (e : Event) : World Doc :=
  { w with ev := w.ev ++ [e] }

/-- The result a `next`-style callback receives: an optional error and a
value (which is `undefined` when the callback was invoked with only an
error). -/
structure NextRes (Doc : Type) where
  err : Option MErr
  val : JSVal Doc
deriving DecidableEq, Repr

/-- The module-level `next(cursor, callback)` function — the single
iteration primitive.  Branches, in source order:
1. id absent: create/borrow a session, run `_initialize`, seed
   id/namespace/buffer from the response shape, and if the call failed or
   the resulting id is zero, end the (locally obtained) session when this
   cursor owns it; the callback always receives `nextDocument`.
2. buffer non-empty: shift one document.
3. id zero-valued or namespace absent: end the owned session and yield
   `null`.
4. no pinned server: fail with the illegal-state error.
5. otherwise `server.getMore`: replace buffer and id from the response;
   if the call failed or the new id is zero, end the owned session; the
   callback receives `nextDocument`. -/
def nextInternal {Doc : Type} (w : World Doc) : NextRes Doc × World Doc :=
  match w.c.id with
  | none =>
    let session : Option Session :=
      match w.c.session with
      | some s => some s
      | none => if w.c.sessionSupport then some { ownedByCursor := true } else none
    match w.initRes with
    | Except.error e =>
      let w1 := logEv w Event.initOp
      let w2 := if sessionOwned session then logEv w1 Event.endSessionOp else w1
      let r := nextDocument w2.c
      ({ err := some (MErr.mongoError e), val := r.1 }, { w2 with c := r.2 })
    | Except.ok st =>
      let c1 := { w.c with server := true, session := session }
      let c2 :=
        match st.resp with
        | InitResponse.cursorShape i nsStr batch =>
          { c1 with id := some (CursorId.val i), ns := some nsStr, documents := batch }
        | InitResponse.legacyShape i docsL =>
          { c1 with id := some (CursorId.val i), ns := some st.nsField, documents := docsL }
      let w1 := logEv { w with c := c2 } Event.initOp
      if idPresentZero w1.c then
        let w2 := if sessionOwned session then logEv w1 Event.endSessionOp else w1
        let r := nextDocument w2.c
        ({ err := none, val := r.1 }, { w2 with c := r.2 })
      else
        let r := nextDocument w1.c
        ({ err := none, val := r.1 }, { w1 with c := r.2 })
  | some cid =>
    match w.c.documents with
    | _ :: _ =>
      let r := nextDocument w.c
      ({ err := none, val := r.1 }, { w with c := r.2 })
    | [] =>
      if cid.isZero || w.c.ns.isNone then
        let w1 := if sessionOwned w.c.session then logEv w Event.endSessionOp else w
        ({ err := none, val := JSVal.null }, w1)
      else if !w.c.server then
        ({ err := some MErr.noPinnedServer, val := JSVal.undef }, w)
      else
        let pr : Except String (GetMoreResponse Doc) × List (Except String (GetMoreResponse Doc)) :=
          match w.gmRes with
          | r :: rest => (r, rest)
          | [] => (Except.error "environment out of responses", [])
        let w1 := logEv { w with gmRes := pr.2 } Event.getMoreOp
        match pr.1 with
        | Except.ok resp =>
          let cNew := { w1.c with documents := resp.nextBatch, id := some (CursorId.val resp.id) }
          let w2 := { w1 with c := cNew }
          if idPresentZero w2.c then
            let w3 := if sessionOwned w2.c.session then logEv w2 Event.endSessionOp else w2
            let r := nextDocument w3.c
            ({ err := none, val := r.1 }, { w3 with c := r.2 })
          else
            let r := nextDocument w2.c
            ({ err := none, val := r.1 }, { w2 with c := r.2 })
        | Except.error e =>
          let w2 := if sessionOwned w1.c.session then logEv w1 Event.endSessionOp else w1
          let r := nextDocument w2.c
          ({ err := some (MErr.mongoError e), val := r.1 }, { w2 with c := r.2 })

/-- The public `next()`: fail with the exhaustion error when
`kId === Long.ZERO` (reference comparison with the sentinel), otherwise
delegate to the internal `next`. -/
def nextPublic {Doc : Type} (w : World Doc) : NextRes Doc × World Doc :=
  if w.c.id = some CursorId.sentinel then
    ({ err := some MErr.cursorExhausted, val := JSVal.undef }, w)
  else
    nextInternal w

/-- The public `hasNext()`: `false` at the sentinel id, `true` on a
non-empty buffer; otherwise fetch one document through the internal
`next` and, when a document came back, unshift it (already transformed)
onto the raw buffer. -/
def hasNextPublic {Doc : Type} (w : World Doc) : (Option MErr × Bool) × World Doc :=
  if w.c.id = some CursorId.sentinel then
    ((none, false), w)
  else if w.c.documents.length != 0 then
    ((none, true), w)
  else
    let r := nextInternal w
    match r.1.err with
    | some e => ((some e, false), r.2)
    | none =>
      match r.1.val with
      | JSVal.doc d =>
        ((none, true), { r.2 with c := { r.2.c with documents := d :: r.2.c.documents } })
      | _ => ((none, false), r.2)

/-- `close()`: set `closed` synchronously; when the id is absent or
zero-valued, or no server is pinned, or the namespace is absent, take the
local path — assign the `Long.ZERO` sentinel to the id and finish without
network activity; otherwise issue `killCursors` against the pinned server
and then end the session when this cursor owns it.  Note that the kill
path neither consults `closed` nor replaces the id. -/
def closeCursor {Doc : Type} (w : World Doc) : Option MErr × World Doc :=
  let w0 := { w with c := { w.c with closed := true } }
  if w0.c.id.isNone || !w0.c.server || idPresentZero w0.c || w0.c.ns.isNone then
    (none, { w0 with c := { w0.c with id := some CursorId.sentinel } })
  else
    let w1 := logEv w0 Event.killCursorsOp
    let w2 := if sessionOwned w1.c.session then logEv w1 Event.endSessionOp else w1
    (none, w2)

/-- One `toArray()` loop iteration, fuelled.  Each continuing iteration
either performs the one-time initialization, pops the (immediately
emptied) buffer, or consumes one `getMore` response, so
`gmRes.length + 3` iterations always suffice; the fuel-zero branch is
unreachable from the fuel chosen by `toArrayPublic`. -/
def toArrayLoop {Doc : Type} : Nat → World Doc → List Doc → (Option MErr × List Doc) × World Doc
  | 0, w, acc => ((some (MErr.mongoError "out of fuel"), acc), w)
  | Nat.succ fuel, w, acc =>
    let r := nextInternal w
    match r.1.err with
    | some e => ((some e, acc), r.2)
    | none =>
      match r.1.val with
      | JSVal.doc d =>
        let internalDocs :=
          match r.2.c.transform with
          | some t => r.2.c.documents.map t
          | none => r.2.c.documents
        let w2 := { r.2 with c := { r.2.c with documents := [] } }
        toArrayLoop fuel w2 (acc ++ d :: internalDocs)
      | _ => ((none, acc), r.2)

/-- The public `toArray()`: repeatedly pull through the internal `next`;
the pulled document is already transformed, the remainder of the batch is
spliced out and mapped through the transform. -/
def toArrayPublic {Doc : Type} (w : World Doc) : (Option MErr × List Doc) × World Doc :=
  toArrayLoop (w.gmRes.length + 3) w []

/-- Run the visitor over a spliced batch, stopping at the first `false`
(`result === false` in the source); `true` means iteration continues. -/
def runVisitor {Doc : Type} (it : Doc → Bool) : List Doc → Bool
  | [] => true
  | d :: rest => if it d then runVisitor it rest else false

/-- One `forEach(iterator)` loop iteration, fuelled exactly like
`toArrayLoop`. -/
def forEachLoop {Doc : Type} (it : Doc → Bool) : Nat → World Doc → Option MErr × World Doc
  | 0, w => (some (MErr.mongoError "out of fuel"), w)
  | Nat.succ fuel, w =>
    let r := nextInternal w
    match r.1.err with
    | some e => (some e, r.2)
    | none =>
      match r.1.val with
      | JSVal.doc d =>
        if it d then
          let internalDocs :=
            match r.2.c.transform with
            | some t => r.2.c.documents.map t
            | none => r.2.c.documents
          let w2 := { r.2 with c := { r.2.c with documents := [] } }
          if runVisitor it internalDocs then forEachLoop it fuel w2
          else (none, w2)
        else (none, r.2)
      | _ => (none, r.2)

/-- The public `forEach(iterator)`. -/
def forEachPublic {Doc : Type} (it : Doc → Bool) (w : World Doc) : Option MErr × World Doc :=
  forEachLoop it (w.gmRes.length + 3) w

/-- `map(transform)`: compose the new transform after any existing one
(new after old), otherwise install it. -/
def mapCursor {Doc : Type} (transform : Doc → Doc) (c : Cursor Doc) : Cursor Doc :=
  match c.transform with
  | some oldTransform => { c with transform := some (fun d => transform (oldTransform d)) }
  | none => { c with transform := some transform }

/-- The public operations a caller may interleave on one cursor. -/
inductive Op (Doc : Type) where
  | next
  | hasNext
  | close
  | toArray
  | forEach (it : Doc → Bool)

/-- Perform one public operation, keeping only the state. -/
def step {Doc : Type} (w : World Doc) : Op Doc → World Doc
  | Op.next => (nextPublic w).2
  | Op.hasNext => (hasNextPublic w).2
  | Op.close => (closeCursor w).2
  | Op.toArray => (toArrayPublic w).2
  | Op.forEach it => (forEachPublic it w).2

/-- Run a finite sequence of public operations. -/
def run {Doc : Type} (w : World Doc) : List (Op Doc) → World Doc
  | [] => w
  | op :: rest => run (step w op) rest

/-- How many times a given effect has been observed. -/
def countEv {Doc : Type} (w : World Doc) (e : Event) : Nat := w.ev.count e

/-- The cursor flags accepted by `addCursorFlag` (`CURSOR_FLAGS`);
`prtl` stands for the 'partial' flag, whose source name is a reserved
word here. -/
inductive FlagName where
  | tailable
  | oplogReplay
  | noCursorTimeout
  | awaitData
  | exhaust
  | prtl
deriving DecidableEq, Repr

/-- The find-specific option object (`this.options` of `FindCursor`, the
very object the caller passed to the constructor).  The formatted sort
specification is abstracted to an integer token, since only presence and
identity matter here. -/
structure FindOpts where
  tailable : Option Bool
  sortSpec : Option Int
  limit : Option Int
  skip : Option Int
deriving DecidableEq, Repr

/-- The two separate option stores of a `FindCursor`: the constructor's
find options (`this.options`) and the abstract cursor's internal option
record (the symbol-keyed kOptions), of which only the flag fields matter.
The `AbstractCursor` constructor copies only batchSize, comment,
maxTimeMS, readPreference and the BSON-serialize options into the
internal record — never the flags — so the two stores start independent. -/
structure FindCursorCfg where
  options : FindOpts
  kFlags : FlagName → Option Bool

/-- Construct a `FindCursor`'s option state from the caller's find
options. -/
def mkFindCursorCfg (optTailable : Option Bool) : FindCursorCfg :=
  { options := { tailable := optTailable, sortSpec := none, limit := none, skip := none },
    kFlags := fun _ => none }

/-- `addCursorFlag(flag, value)`: flag membership and boolean-ness are
enforced by the types; the value is stored in the internal option record
(`kOptions`), not in the find options. -/
def addCursorFlag (c : FindCursorCfg) (flag : FlagName) (value : Bool) : FindCursorCfg :=
  { c with kFlags := fun f => if f = flag then some value else c.kFlags f }

/-- `FindCursor.sort`: throw when `this.options.tailable` is truthy,
otherwise store the formatted sort. -/
def sortF (c : FindCursorCfg) (s : Int) : Except MErr FindCursorCfg :=
  if c.options.tailable = some true then
    Except.error (MErr.mongoError "Tailable cursor does not support sorting")
  else
    Except.ok { c with options := { c.options with sortSpec := some s } }

/-- `FindCursor.limit`: throw when `this.options.tailable` is truthy
(the integer check always passes for an integer argument). -/
def limitF (c : FindCursorCfg) (v : Int) : Except MErr FindCursorCfg :=
  if c.options.tailable = some true then
    Except.error (MErr.mongoError "Tailable cursor does not support limit")
  else
    Except.ok { c with options := { c.options with limit := some v } }

/-- `FindCursor.skip`: throw when `this.options.tailable` is truthy. -/
def skipF (c : FindCursorCfg) (v : Int) : Except MErr FindCursorCfg :=
  if c.options.tailable = some true then
    Except.error (MErr.mongoError "Tailable cursor does not support skip")
  else
    Except.ok { c with options := { c.options with skip := some v } }

/-- Whether an `Except` is a success. -/
def isOkB {e a : Type} : Except e a → Bool
  | Except.ok _ => true
  | Except.error _ => false

/-! ## Concrete worlds used by the scenario theorems -/

/-- A freshly constructed cursor with no caller-supplied session on a
session-supporting topology; its first response is exhausted on arrival
(id 0) with an empty first batch. -/
def c1World : World Nat :=
  { c := mkCursor Nat none true,
    initRes := Except.ok { nsField := "test.coll", resp := InitResponse.cursorShape 0 "test.coll" [] },
    gmRes := [], ev := [] }

/-- A freshly constructed cursor (no sessions) whose first response
carries the live id 42 and one document. -/
def c2World : World Nat :=
  { c := mkCursor Nat none false,
    initRes := Except.ok { nsField := "test.coll", resp := InitResponse.cursorShape 42 "test.coll" [5] },
    gmRes := [], ev := [] }

/-- An active cursor: id 42, empty buffer, pinned server, owned implicit
session; the pending getMore response carries id 0 and an empty
nextBatch. -/
def c3World : World Nat :=
  { c := { id := some (CursorId.val 42), ns := some "test.coll", server := true,
           documents := [], session := some { ownedByCursor := true }, transform := none,
           closed := false, sessionSupport := true },
    initRes := Except.error "unused", gmRes := [Except.ok { id := 0, nextBatch := [] }], ev := [] }

/-- Claim C1 counterexample: on `c1World` the session is created
implicitly during the first `next()` (the cursor is its owner), the
sequence `next(); next()` reaches exhaustion, yet `endSession` is
invoked twice — not exactly once: the second `next()` on the exhausted
cursor repeats the release. -/
theorem c1_counterexample :
    countEv (run c1World [Op.next, Op.next]) Event.endSessionOp = 2 ∧
    countEv (run c1World [Op.next, Op.next]) Event.endSessionOp ≠ 1 := by decide

/-- Claim C2 counterexample: after initializing `c2World` (id 42, pinned
server), calling `close()` twice issues `killCursors` twice — the second
`close()` repeats the network kill, because the kill path neither checks
`closed` nor zeroes the id. -/
theorem c2_counterexample :
    countEv (run c2World [Op.next, Op.close, Op.close]) Event.killCursorsOp = 2 ∧
    ¬ countEv (run c2World [Op.next, Op.close, Op.close]) Event.killCursorsOp ≤ 1 := by decide

/-- Claim C3 evaluated at its scenario: a cursor with id 42, empty
buffer, pinned server and owned session, whose getMore response carries
id 0 and an empty nextBatch.  The in-progress `next()` ends the owned
session before its callback runs and issues exactly one getMore, but it
resolves with the JavaScript value `undefined` (from `nextDocument` on an
empty buffer) — not with `null` as the claim and `next()`'s own
documentation state. -/
theorem c3_undefined_eval :
    (nextPublic c3World).1 = { err := none, val := JSVal.undef } ∧
    (nextPublic c3World).1.val ≠ JSVal.null ∧
    countEv (nextPublic c3World).2 Event.endSessionOp = 1 ∧
    countEv (nextPublic c3World).2 Event.getMoreOp = 1 := by decide

/-- An initialized cursor carrying the composed transform
`n ↦ n + 1` (installed via `map`), with id 42, empty buffer and a pinned
server; the pending getMore response carries the live id 43 and the
single raw document `0`. -/
def c5World : World Nat :=
  { c := mapCursor (fun n => n + 1)
      { id := some (CursorId.val 42), ns := some "test.coll", server := true,
        documents := [], session := none, transform := none,
        closed := false, sessionSupport := false },
    initRes := Except.error "unused", gmRes := [Except.ok { id := 43, nextBatch := [0] }], ev := [] }

/-- Claim C5 counterexample: on `c5World`, `next()` alone would deliver
the transformed document `1`; but after `hasNext()` (which fetches the
document, transforms it, and unshifts the transformed value back into
the raw buffer) the subsequent `next()` delivers `2` — the transform has
been applied twice, so the pushed-back document is not what `next()`
alone would have returned. -/
theorem c5_counterexample :
    (nextPublic c5World).1.val = JSVal.doc 1 ∧
    (hasNextPublic c5World).1 = (none, true) ∧
    (nextPublic (hasNextPublic c5World).2).1.val = JSVal.doc 2 ∧
    (nextPublic (hasNextPublic c5World).2).1.val ≠ (nextPublic c5World).1.val := by decide

/-- A freshly constructed cursor whose first response is already
exhausted (id 0) but carries a first batch of three documents. -/
def c8World : World Nat :=
  { c := mkCursor Nat none false,
    initRes := Except.ok { nsField := "test.coll", resp := InitResponse.cursorShape 0 "test.coll" [1, 2, 3] },
    gmRes := [], ev := [] }

/-- Claim C8 counterexample: after one `next()` (which initializes and
pops the first document) and a `close()` (which takes the local path and
assigns the `Long.ZERO` sentinel to the id while two documents are still
buffered), the next `next()` fails with the exhaustion error even though
the buffer is not empty — contradicting the claim that the failure
happens exactly when the id is the zero sentinel *and* the buffer is
empty. -/
theorem c8_counterexample :
    (run c8World [Op.next, Op.close]).c.documents = [2, 3] ∧
    (run c8World [Op.next, Op.close]).c.id = some CursorId.sentinel ∧
    (nextPublic (run c8World [Op.next, Op.close])).1.err = some MErr.cursorExhausted := by decide

/-- A find cursor constructed without tailable mode. -/
def fc0 : FindCursorCfg := mkFindCursorCfg none

/-- The same cursor after `addCursorFlag` enabling tailable mode. -/
def fc1 : FindCursorCfg := addCursorFlag fc0 FlagName.tailable true

/-- Claim C9 counterexample: enabling tailable mode via
`addCursorFlag` records the flag in the internal option record, but
`sort`, `limit` and `skip` consult only the constructor-supplied find
options — so all three succeed (and mutate the configuration) instead of
failing with an invalid-argument error. -/
theorem c9_counterexample :
    fc1.kFlags FlagName.tailable = some true ∧
    isOkB (sortF fc1 1) = true ∧
    isOkB (limitF fc1 5) = true ∧
    isOkB (skipF fc1 2) = true ∧
    (match sortF fc1 1 with
     | Except.ok c => c.options.sortSpec
     | Except.error _ => none) = some 1 := by
  refine ⟨rfl, rfl, rfl, rfl, rfl⟩

/-- A freshly constructed cursor whose first response carries the live id
42 and one document (used to reach the kill path of `close`). -/
def c10ActiveWorld : World Nat :=
  { c := mkCursor Nat none false,
    initRes := Except.ok { nsField := "test.coll", resp := InitResponse.cursorShape 42 "test.coll" [7] },
    gmRes := [], ev := [] }

/-- A cursor on which no operation has run before `close()`. -/
def c10UninitWorld : World Nat :=
  { c := mkCursor Nat none false, initRes := Except.error "unused", gmRes := [], ev := [] }

/-- Claim C10: `isClosed()` is a pure function of the id — `false` when
the id is absent and otherwise exactly the id's zero test.  After
`close()` on an active cursor (non-zero id, pinned server — the kill
path) the id is untouched, so `isClosed()` is still `false` although
`closed` is `true`; `close()` on a never-initialized cursor assigns the
zero sentinel, making `isClosed()` return `true`. -/
theorem c10_isClosed_by_id :
    (∀ (Doc : Type) (c : Cursor Doc),
        isClosed c = (match c.id with
                      | none => false
                      | some cid => cid.isZero)) ∧
    ((run c10ActiveWorld [Op.next, Op.close]).c.closed = true ∧
      (run c10ActiveWorld [Op.next, Op.close]).c.id = some (CursorId.val 42) ∧
      isClosed (run c10ActiveWorld [Op.next, Op.close]).c = false) ∧
    ((run c10UninitWorld [Op.close]).c.id = some CursorId.sentinel ∧
      isClosed (run c10UninitWorld [Op.close]).c = true) := by
  refine ⟨?_, by decide, by decide⟩
  intro Doc c
  unfold isClosed
  cases c.id with
  | none => rfl
  | some cid => cases cid <;> simp [CursorId.isZero, isSentinel]

/-- Claim C9 (amended): `sort`, `limit` and `skip` fail — leaving the
configuration untouched — precisely when tailable mode was enabled
through the constructor-supplied find options (`options.tailable`
truthy); tailable mode enabled via `addCursorFlag` lives in the internal
option record and does not affect these builders. -/
theorem c9_amended_constructor_tailable (c : FindCursorCfg) (s v k : Int)
    (h : c.options.tailable = some true) :
    sortF c s = Except.error (MErr.mongoError "Tailable cursor does not support sorting") ∧
    limitF c v = Except.error (MErr.mongoError "Tailable cursor does not support limit") ∧
    skipF c k = Except.error (MErr.mongoError "Tailable cursor does not support skip") := by
  simp [sortF, limitF, skipF, h]

/-- A find cursor whose constructor options set `tailable: true`. -/
def fcTailable : FindCursorCfg := mkFindCursorCfg (some true)

/-- Witness for the amended claim C9 at a concrete tailable cursor. -/
theorem c9_amended_witness :
    fcTailable.options.tailable = some true ∧
    (sortF fcTailable 1 = Except.error (MErr.mongoError "Tailable cursor does not support sorting") ∧
     limitF fcTailable 2 = Except.error (MErr.mongoError "Tailable cursor does not support limit") ∧
     skipF fcTailable 3 = Except.error (MErr.mongoError "Tailable cursor does not support skip")) :=
  ⟨rfl, c9_amended_constructor_tailable fcTailable 1 2 3 rfl⟩

/-- A fresh cursor whose transform is the composition installed by
`map f` followed by `map g`, and whose first response is terminal (id 0)
with the given first batch. -/
def c4InitWorld (f g : Nat → Nat) (docs : List Nat) : World Nat :=
  { c := mapCursor g (mapCursor f (mkCursor Nat none false)),
    initRes := Except.ok { nsField := "test.coll", resp := InitResponse.cursorShape 0 "test.coll" docs },
    gmRes := [], ev := [] }

/-- An active cursor (id 42, pinned server) carrying the same composed
transform, holding `buf` as its raw buffer. -/
def c4PullWorld (f g : Nat → Nat) (buf : List Nat) : World Nat :=
  { c := { id := some (CursorId.val 42), ns := some "test.coll", server := true,
           documents := buf, session := none,
           transform := (mapCursor g (mapCursor f (mkCursor Nat none false))).transform,
           closed := false, sessionSupport := false },
    initRes := Except.error "unused", gmRes := [], ev := [] }

/-- The same active cursor with an empty buffer and one pending terminal
getMore response delivering `batch`. -/
def c4GetMoreWorld (f g : Nat → Nat) (batch : List Nat) : World Nat :=
  { c := { id := some (CursorId.val 42), ns := some "test.coll", server := true,
           documents := [], session := none,
           transform := (mapCursor g (mapCursor f (mkCursor Nat none false))).transform,
           closed := false, sessionSupport := false },
    initRes := Except.error "unused", gmRes := [Except.ok { id := 0, nextBatch := batch }], ev := [] }

/-- Claim C4: after `map f` followed by `map g` the cursor's transform is
exactly the composition applying `f` first and `g` second, and every raw
document `d` fetched from the server is delivered to the caller as
`g (f d)` exactly once — both when pulled singly via `next()` (from a
buffered batch) and when drained in bulk via `toArray()` (whether the
batch arrived with the initialization response or through a getMore). -/
theorem c4_map_composition (f g : Nat → Nat) (d : Nat) (buf docs batch : List Nat) :
    (∀ x : Nat,
      applyTransform (mapCursor g (mapCursor f (mkCursor Nat none false))).transform x = g (f x)) ∧
    (nextPublic (c4PullWorld f g (d :: buf))).1.val = JSVal.doc (g (f d)) ∧
    (toArrayPublic (c4InitWorld f g docs)).1 = (none, docs.map (fun x => g (f x))) ∧
    (toArrayPublic (c4GetMoreWorld f g batch)).1 = (none, batch.map (fun x => g (f x))) := by
  refine ⟨fun x => rfl, rfl, ?_, ?_⟩
  · cases docs with
    | nil => rfl
    | cons d0 rest =>
      show (toArrayLoop 3 (c4InitWorld f g (d0 :: rest)) []).1 = _
      simp [toArrayLoop, nextInternal, nextDocument, c4InitWorld, mkCursor, mapCursor,
            applyTransform, idPresentZero, sessionOwned, logEv, CursorId.isZero]
  · cases batch with
    | nil => rfl
    | cons d0 rest =>
      show (toArrayLoop 4 (c4GetMoreWorld f g (d0 :: rest)) []).1 = _
      simp [toArrayLoop, nextInternal, nextDocument, c4GetMoreWorld, mkCursor, mapCursor,
            applyTransform, idPresentZero, sessionOwned, logEv, CursorId.isZero]

/-- A fresh transform-free cursor whose first response carries id 0 and
the three documents of the scenario. -/
def c6World (d1 d2 d3 : Nat) : World Nat :=
  { c := mkCursor Nat none false,
    initRes := Except.ok { nsField := "test.coll",
                           resp := InitResponse.cursorShape 0 "test.coll" [d1, d2, d3] },
    gmRes := [], ev := [] }

/-- Claim C6: initializing a cursor whose first response carries id 0 and
a first batch of three documents makes `toArray()` produce exactly those
three documents in server order; a subsequent `next()` signals the end
with `null`, and no `getMore` is ever issued — neither during the drain
nor by later `next()` calls. -/
theorem c6_first_batch_terminal (d1 d2 d3 : Nat) :
    (toArrayPublic (c6World d1 d2 d3)).1 = (none, [d1, d2, d3]) ∧
    countEv (toArrayPublic (c6World d1 d2 d3)).2 Event.getMoreOp = 0 ∧
    (nextPublic (toArrayPublic (c6World d1 d2 d3)).2).1.val = JSVal.null ∧
    countEv (run (c6World d1 d2 d3) [Op.toArray, Op.next, Op.next]) Event.getMoreOp = 0 := by
  refine ⟨?_, ?_, ?_, ?_⟩ <;>
    simp [toArrayPublic, toArrayLoop, nextInternal, nextPublic, nextDocument, c6World, mkCursor,
          applyTransform, idPresentZero, sessionOwned, logEv, CursorId.isZero, run, step,
          countEv, Event, List.count_append, List.count_cons, List.count_nil]

/-- On an exhausted cursor (zero-valued non-sentinel id, empty buffer)
with an owned session, each public `next()` leaves the state unchanged
except for appending one more `endSession` invocation. -/
theorem step_next_exhausted_owned (w : World Nat)
    (hid : w.c.id = some (CursorId.val 0))
    (hbuf : w.c.documents = [])
    (hses : w.c.session = some { ownedByCursor := true }) :
    step w Op.next = { w with ev := w.ev ++ [Event.endSessionOp] } := by
  unfold step nextPublic
  simp [nextInternal, hid, hbuf, hses, sessionOwned, logEv, CursorId.isZero]

/-- Iterating `next()` `k` times on an exhausted cursor with an owned
session adds `k` further `endSession` invocations. -/
theorem run_nexts_exhausted_owned (k : Nat) :
    ∀ w : World Nat, w.c.id = some (CursorId.val 0) → w.c.documents = [] →
      w.c.session = some { ownedByCursor := true } →
      countEv (run w (List.replicate k Op.next)) Event.endSessionOp =
        countEv w Event.endSessionOp + k := by
  induction k with
  | zero => intro w _ _ _; simp [run, List.replicate]
  | succ n ih =>
    intro w hid hbuf hses
    rw [List.replicate_succ]
    show countEv (run (step w Op.next) (List.replicate n Op.next)) Event.endSessionOp = _
    rw [step_next_exhausted_owned w hid hbuf hses]
    rw [ih { w with ev := w.ev ++ [Event.endSessionOp] } hid hbuf hses]
    simp [countEv, List.count_append, List.count_cons, List.count_nil]
    omega

/-- Claim C1 (amended): the first `next()` that observes exhaustion on
the implicitly-sessioned cursor invokes `endSession` exactly once, but
the release is not latched — each further `next()` on the exhausted
cursor invokes `endSession` once more, so `k + 1` such calls produce
`k + 1` invocations.  Exactly-once holds only for sequences that stop at
the first exhaustion-observing call. -/
theorem c1_amended_once_per_observation (k : Nat) :
    countEv (run c1World [Op.next]) Event.endSessionOp = 1 ∧
    countEv (run c1World (Op.next :: List.replicate k Op.next)) Event.endSessionOp = k + 1 := by
  constructor
  · decide
  · show countEv (run (step c1World Op.next) (List.replicate k Op.next)) Event.endSessionOp = k + 1
    rw [run_nexts_exhausted_owned k (step c1World Op.next) (by decide) (by decide) (by decide)]
    have h1 : countEv (step c1World Op.next) Event.endSessionOp = 1 := by decide
    omega

/-- `idPresentZero` ignores the `closed` flag. -/
theorem idPresentZero_setClosed {Doc : Type} (c : Cursor Doc) (b : Bool) :
    idPresentZero { c with closed := b } = idPresentZero c := rfl

/-- A `close()` whose precondition sends it down the local path only
assigns the sentinel id and the `closed` flag; no effect is logged. -/
theorem closeCursor_local {Doc : Type} (w : World Doc)
    (h : w.c.id = none ∨ w.c.server = false ∨ idPresentZero w.c = true ∨ w.c.ns = none) :
    closeCursor w =
      (none, { w with c := { w.c with closed := true, id := some CursorId.sentinel } }) := by
  unfold closeCursor
  rcases h with h | h | h | h <;>
    simp [h, idPresentZero_setClosed]

/-- Claim C2 (amended): two consecutive `close()` calls issue no kill
when the first one takes the local path (id absent or zero-valued, or no
pinned server, or no namespace): the first call zeroes the id with the
sentinel, so the second also takes the local path.  When instead the
first `close()` reaches the kill path, the second `close()` issues a
second kill (see the counterexample), so at-most-one holds only in the
local-path case. -/
theorem c2_amended_local_close_no_kill {Doc : Type} (w : World Doc)
    (h : w.c.id = none ∨ w.c.server = false ∨ idPresentZero w.c = true ∨ w.c.ns = none) :
    countEv (run w [Op.close, Op.close]) Event.killCursorsOp = countEv w Event.killCursorsOp := by
  show countEv (step (step w Op.close) Op.close) Event.killCursorsOp = _
  have h2 : step w Op.close =
      { w with c := { w.c with closed := true, id := some CursorId.sentinel } } := by
    unfold step
    rw [closeCursor_local w h]
  rw [h2]
  have h3 : step ({ w with c := { w.c with closed := true, id := some CursorId.sentinel } } : World Doc)
      Op.close =
      { w with c := { w.c with closed := true, id := some CursorId.sentinel } } := by
    unfold step
    rw [closeCursor_local ({ w with c := { w.c with closed := true, id := some CursorId.sentinel } } : World Doc)
        (Or.inr (Or.inr (Or.inl rfl)))]
  rw [h3]
  rfl

/-- A never-initialized cursor used as the witness state for the amended
claim C2. -/
def c2LocalWorld : World Nat :=
  { c := mkCursor Nat none false, initRes := Except.error "unused", gmRes := [], ev := [] }

/-- Witness for the amended claim C2: on a never-initialized cursor both
`close()` calls are network-free. -/
theorem c2_amended_witness :
    (c2LocalWorld.c.id = none ∨ c2LocalWorld.c.server = false ∨
      idPresentZero c2LocalWorld.c = true ∨ c2LocalWorld.c.ns = none) ∧
    countEv (run c2LocalWorld [Op.close, Op.close]) Event.killCursorsOp =
      countEv c2LocalWorld Event.killCursorsOp :=
  ⟨Or.inl rfl, c2_amended_local_close_no_kill c2LocalWorld (Or.inl rfl)⟩

/-- An initialized transform-free cursor (id 42, pinned server, empty
buffer) whose single pending getMore response delivers one raw document
`d` under the live id `rid`. -/
def c5PlainWorld (d : Nat) (rid : Int) : World Nat :=
  { c := { id := some (CursorId.val 42), ns := some "test.coll", server := true,
           documents := [], session := none, transform := none,
           closed := false, sessionSupport := false },
    initRes := Except.error "unused", gmRes := [Except.ok { id := rid, nextBatch := [d] }], ev := [] }

/-- The same cursor carrying the transform `t`. -/
def c5TransformWorld (t : Nat → Nat) (d : Nat) (rid : Int) : World Nat :=
  { c := { id := some (CursorId.val 42), ns := some "test.coll", server := true,
           documents := [], session := none, transform := some t,
           closed := false, sessionSupport := false },
    initRes := Except.error "unused", gmRes := [Except.ok { id := rid, nextBatch := [d] }], ev := [] }

/-- Claim C5 (amended): `hasNext()` is `true` when the buffer is
non-empty or a fetch yields a document, and the fetched document is
pushed back onto the front of the buffer — but it is pushed back already
transformed.  A subsequent `next()` therefore returns exactly what
`next()` alone would have returned only for a transform-free cursor; with
a transform `t` installed, the subsequent `next()` returns `t (t d)`, the
transform applied twice. -/
theorem c5_amended_pushback (d : Nat) (rid : Int) (t : Nat → Nat) :
    (hasNextPublic (c5PlainWorld d rid)).1 = (none, true) ∧
    (hasNextPublic (c5PlainWorld d rid)).2.c.documents = [d] ∧
    (nextPublic (hasNextPublic (c5PlainWorld d rid)).2).1.val = JSVal.doc d ∧
    (nextPublic (c5PlainWorld d rid)).1.val = JSVal.doc d ∧
    (nextPublic (hasNextPublic (c5TransformWorld t d rid)).2).1.val = JSVal.doc (t (t d)) := by
  refine ⟨?_, ?_, ?_, ?_, ?_⟩ <;>
  · rcases hz : rid == 0 <;>
      simp [c5PlainWorld, c5TransformWorld, hasNextPublic, nextPublic, nextInternal, hz,
            nextDocument, applyTransform, sessionOwned, logEv, idPresentZero, CursorId.isZero]

/-- The internal `next` never produces the local exhaustion error: its
failures are environment errors or the missing-pinned-server error. -/
theorem nextInternal_err_not_exhausted {Doc : Type} (w : World Doc) :
    (nextInternal w).1.err ≠ some MErr.cursorExhausted := by
  unfold nextInternal
  repeat' split
  all_goals try simp_all [apply_ite]
  all_goals rename_i r rest hzero hserver heq
  all_goals rcases r with e | resp <;> simp [apply_ite]

/-- Claim C8 (amended): a public `next()` fails with the exhaustion
error exactly when the cursor id is reference-equal to the `Long.ZERO`
sentinel — the object only `close()`'s local path assigns — regardless
of the buffer's contents, and before any network attempt; zero-valued
ids taken from server responses never trigger it (such a `next()`
returns `null` instead). -/
theorem c8_amended_sentinel_iff {Doc : Type} (w : World Doc) :
    (nextPublic w).1.err = some MErr.cursorExhausted ↔ w.c.id = some CursorId.sentinel := by
  unfold nextPublic
  by_cases hid : w.c.id = some CursorId.sentinel
  · simp [hid]
  · simp only [hid, if_false, iff_false]
    exact nextInternal_err_not_exhausted w

/-- The cursor holds a caller-supplied (borrowed) session: a session is
attached and this cursor is not its owner. -/
def hasBorrowedSession {Doc : Type} (c : Cursor Doc) : Bool :=
  match c.session with
  | some s => !s.ownedByCursor
  | none => false

/-- Popping a document never touches the session. -/
theorem nextDocument_session {Doc : Type} (c : Cursor Doc) :
    (nextDocument c).2.session = c.session := by
  unfold nextDocument
  split <;> rfl

/-- Appending a non-endSession effect does not change the endSession
count. -/
theorem count_endSession_append_other (l : List Event) (e : Event)
    (h : e ≠ Event.endSessionOp) :
    (l ++ [e]).count Event.endSessionOp = l.count Event.endSessionOp := by
  simp [List.count_append, List.count_singleton]
  intro hc
  exact absurd hc h

/-- The internal `next` neither replaces a borrowed session with an
owned one nor ends it: the borrowed-session invariant is preserved and
no `endSession` is logged. -/
theorem nextInternal_borrowed {Doc : Type} (w : World Doc)
    (h : hasBorrowedSession w.c = true) :
    hasBorrowedSession (nextInternal w).2.c = true ∧
    (nextInternal w).2.ev.count Event.endSessionOp = w.ev.count Event.endSessionOp := by
  rcases hs : w.c.session with _ | s
  · rw [hasBorrowedSession] at h
    rw [hs] at h
    simp at h
  · have ho : s.ownedByCursor = false := by
      rw [hasBorrowedSession] at h
      rw [hs] at h
      simpa using h
    unfold nextInternal
    rw [hs]
    repeat' split
    all_goals try simp_all [hasBorrowedSession, sessionOwned, logEv, nextDocument_session,
      List.count_append, List.count_cons, List.count_nil]
    all_goals rename_i r rest hzero hserver heq
    all_goals rcases r with e | resp <;>
      simp_all [hasBorrowedSession, sessionOwned, logEv, nextDocument_session, apply_ite,
        idPresentZero, List.count_append, List.count_cons, List.count_nil]

/-- The public `next()` preserves the borrowed-session invariant and logs
no `endSession`. -/
theorem nextPublic_borrowed {Doc : Type} (w : World Doc)
    (h : hasBorrowedSession w.c = true) :
    hasBorrowedSession (nextPublic w).2.c = true ∧
    (nextPublic w).2.ev.count Event.endSessionOp = w.ev.count Event.endSessionOp := by
  unfold nextPublic
  split
  · exact ⟨h, rfl⟩
  · exact nextInternal_borrowed w h

/-- The public `hasNext()` preserves the borrowed-session invariant and
logs no `endSession` (the unshift touches only the buffer). -/
theorem hasNextPublic_borrowed {Doc : Type} (w : World Doc)
    (h : hasBorrowedSession w.c = true) :
    hasBorrowedSession (hasNextPublic w).2.c = true ∧
    (hasNextPublic w).2.ev.count Event.endSessionOp = w.ev.count Event.endSessionOp := by
  unfold hasNextPublic
  have hni := nextInternal_borrowed w h
  split
  · exact ⟨h, rfl⟩
  · split
    · exact ⟨h, rfl⟩
    · rcases herr : (nextInternal w).1.err with _ | e
      · rcases hval : (nextInternal w).1.val with _ | _ | d <;>
          simp_all [hasBorrowedSession]
      · simp only [herr]
        exact ⟨hni.1, hni.2⟩

/-- A borrowed session is, in particular, not owned. -/
theorem borrowed_not_owned {Doc : Type} (c : Cursor Doc)
    (h : hasBorrowedSession c = true) :
    sessionOwned c.session = false := by
  unfold hasBorrowedSession at h
  rcases hs : c.session with _ | s
  · rfl
  · rw [hs] at h
    simp only [sessionOwned]
    simpa using h

/-- `close()` never touches the session field. -/
theorem closeCursor_session {Doc : Type} (w : World Doc) :
    (closeCursor w).2.c.session = w.c.session := by
  unfold closeCursor
  dsimp only
  split
  · rfl
  · dsimp only [logEv]
    split <;> rfl

/-- `close()` logs no `endSession` when the session is not owned. -/
theorem closeCursor_count_not_owned {Doc : Type} (w : World Doc)
    (h : sessionOwned w.c.session = false) :
    (closeCursor w).2.ev.count Event.endSessionOp = w.ev.count Event.endSessionOp := by
  unfold closeCursor
  dsimp only
  split
  · rfl
  · simp [logEv, h, List.count_append, List.count_cons, List.count_nil]

/-- `close()` preserves the borrowed-session invariant and logs no
`endSession`: the kill path's release is guarded by ownership. -/
theorem closeCursor_borrowed {Doc : Type} (w : World Doc)
    (h : hasBorrowedSession w.c = true) :
    hasBorrowedSession (closeCursor w).2.c = true ∧
    (closeCursor w).2.ev.count Event.endSessionOp = w.ev.count Event.endSessionOp := by
  constructor
  · have h2 := h
    unfold hasBorrowedSession at h2 ⊢
    rw [closeCursor_session w]
    exact h2
  · exact closeCursor_count_not_owned w (borrowed_not_owned w.c h)

/-- The `toArray()` loop preserves the borrowed-session invariant and
logs no `endSession`, for any fuel. -/
theorem toArrayLoop_borrowed {Doc : Type} (fuel : Nat) :
    ∀ (w : World Doc) (acc : List Doc), hasBorrowedSession w.c = true →
      hasBorrowedSession (toArrayLoop fuel w acc).2.c = true ∧
      (toArrayLoop fuel w acc).2.ev.count Event.endSessionOp =
        w.ev.count Event.endSessionOp := by
  induction fuel with
  | zero => intro w acc h; exact ⟨h, rfl⟩
  | succ n ih =>
    intro w acc h
    have hni := nextInternal_borrowed w h
    unfold toArrayLoop
    rcases herr : (nextInternal w).1.err with _ | e
    · rcases hval : (nextInternal w).1.val with _ | _ | d
      · simp only [herr, hval]
        exact ⟨hni.1, hni.2⟩
      · simp only [herr, hval]
        exact ⟨hni.1, hni.2⟩
      · simp only [herr, hval]
        have hrec := ih { (nextInternal w).2 with
            c := { (nextInternal w).2.c with documents := [] } }
          (acc ++ d :: (match (nextInternal w).2.c.transform with
            | some t => (nextInternal w).2.c.documents.map t
            | none => (nextInternal w).2.c.documents))
          (by simpa [hasBorrowedSession] using hni.1)
        refine ⟨hrec.1, ?_⟩
        rw [hrec.2]
        exact hni.2
    · simp only [herr]
      exact ⟨hni.1, hni.2⟩

/-- The `forEach()` loop preserves the borrowed-session invariant and
logs no `endSession`, for any fuel and any visitor. -/
theorem forEachLoop_borrowed {Doc : Type} (it : Doc → Bool) (fuel : Nat) :
    ∀ w : World Doc, hasBorrowedSession w.c = true →
      hasBorrowedSession (forEachLoop it fuel w).2.c = true ∧
      (forEachLoop it fuel w).2.ev.count Event.endSessionOp =
        w.ev.count Event.endSessionOp := by
  induction fuel with
  | zero => intro w h; exact ⟨h, rfl⟩
  | succ n ih =>
    intro w h
    have hni := nextInternal_borrowed w h
    unfold forEachLoop
    rcases herr : (nextInternal w).1.err with _ | e
    · rcases hval : (nextInternal w).1.val with _ | _ | d
      · simp only [herr, hval]
        exact ⟨hni.1, hni.2⟩
      · simp only [herr, hval]
        exact ⟨hni.1, hni.2⟩
      · simp only [herr, hval]
        rcases hit : it d
        · simp only [hit, Bool.false_eq_true, if_false]
          exact ⟨hni.1, hni.2⟩
        · simp only [hit, if_true]
          rcases hrv : runVisitor it (match (nextInternal w).2.c.transform with
            | some t => (nextInternal w).2.c.documents.map t
            | none => (nextInternal w).2.c.documents)
          · simp only [hrv, Bool.false_eq_true, if_false]
            exact ⟨hni.1, hni.2⟩
          · simp only [hrv, if_true]
            have hrec := ih { (nextInternal w).2 with
                c := { (nextInternal w).2.c with documents := [] } }
              (by simpa [hasBorrowedSession] using hni.1)
            refine ⟨hrec.1, ?_⟩
            rw [hrec.2]
            exact hni.2
    · simp only [herr]
      exact ⟨hni.1, hni.2⟩

/-- Every public operation preserves the borrowed-session invariant and
logs no `endSession`. -/
theorem step_borrowed {Doc : Type} (w : World Doc) (op : Op Doc)
    (h : hasBorrowedSession w.c = true) :
    hasBorrowedSession (step w op).c = true ∧
    (step w op).ev.count Event.endSessionOp = w.ev.count Event.endSessionOp := by
  cases op with
  | next => exact nextPublic_borrowed w h
  | hasNext => exact hasNextPublic_borrowed w h
  | close => exact closeCursor_borrowed w h
  | toArray => exact toArrayLoop_borrowed (w.gmRes.length + 3) w [] h
  | forEach it => exact forEachLoop_borrowed it (w.gmRes.length + 3) w h

/-- Claim C7: for a cursor holding a caller-supplied (borrowed) session,
no finite sequence of `next` / `hasNext` / `toArray` / `forEach` /
`close` operations ever invokes `endSession` on that session. -/
theorem c7_borrowed_session_never_ended {Doc : Type} (w : World Doc) (ops : List (Op Doc))
    (hb : hasBorrowedSession w.c = true) (h0 : countEv w Event.endSessionOp = 0) :
    countEv (run w ops) Event.endSessionOp = 0 := by
  induction ops generalizing w with
  | nil => exact h0
  | cons op rest ih =>
    show countEv (run (step w op) rest) Event.endSessionOp = 0
    have hstep := step_borrowed w op hb
    exact ih (step w op) hstep.1 (by rw [countEv, hstep.2]; exact h0)

/-- A cursor constructed with a caller-supplied session (owner is not
this cursor), with a full environment: a successful initialization with
a live id and one document, then one further live batch. -/
def c7World : World Nat :=
  { c := mkCursor Nat (some { ownedByCursor := false }) true,
    initRes := Except.ok { nsField := "test.coll", resp := InitResponse.cursorShape 42 "test.coll" [1] },
    gmRes := [Except.ok { id := 0, nextBatch := [2] }], ev := [] }

/-- Witness for claim C7 at a concrete borrowed-session cursor and a
concrete operation sequence that initializes, iterates to exhaustion and
closes. -/
theorem c7_witness :
    hasBorrowedSession c7World.c = true ∧
    countEv c7World Event.endSessionOp = 0 ∧
    countEv (run c7World [Op.next, Op.hasNext, Op.toArray, Op.forEach (fun _ => true), Op.close])
      Event.endSessionOp = 0 :=
  ⟨by decide, by decide,
    c7_borrowed_session_never_ended c7World
      [Op.next, Op.hasNext, Op.toArray, Op.forEach (fun _ => true), Op.close]
      (by decide) (by decide)⟩
